import Mathlib

/-!
Verification of the HTTP transport layer of the string-operation service
(`ch6-discovery/string-service/transport/http.go`).

The Go file is boundary plumbing: it decodes path variables of the route
`POST /op/{type}/{a}/{b}` into a `StringRequest`, decodes `/health`
requests into an empty `HealthRequest` marker, serializes endpoint
responses as JSON, and renders every error as a JSON envelope with a
fixed server-error status.  We embed these functions shallowly:

* route-variable maps (`mux.Vars`) become association lists
  `List (String × String)` consulted with `List.lookup`;
* the `http.ResponseWriter` becomes a record of headers, an optional
  status code and the body written so far, with `net/http` semantics for
  `Header().Set`, `WriteHeader` and implicit-200-on-first-write;
* Go values handed to `encoding/json` become a small JSON AST `GoVal`,
  with `serialize` modelling `json.Marshal` (string escaping as in
  `encoding/json`, failure on unsupported kinds) and the stream encoder
  `json.NewEncoder(w).Encode(v)` writing the serialization followed by a
  newline, as documented for `Encoder.Encode`;
* Go errors become `GoError`, a value carrying its textual message.
-/

/-- A Go `error` value, identified here by the string returned by its
`Error()` method. -/
structure GoError where
  msg : String
deriving DecidableEq, Repr

/-- Embeds `var ErrorBadRequest = errors.New("invalid request parameter")`
(`http.go` line 18). -/
def ErrorBadRequest : GoError := { msg := "invalid request parameter" }

/-- Modelled from the spec: `OperationRequest` is three string fields,
constructed once per call (the `endpoint.StringRequest` struct lives in
the endpoint package, outside the transport file; its three fields are
exactly the ones the transport populates). -/
structure StringRequest where
  RequestType : String
  A : String
  B : String
deriving DecidableEq, Repr

/-- Modelled from the spec: `HealthCheckRequest` is an empty marker value
(the `endpoint.HealthRequest` struct lives in the endpoint package). -/
structure HealthRequest where
deriving DecidableEq, Repr

/-- An inbound HTTP request: method, path, query string, headers, body,
and the route-variable map that `gorilla/mux` attaches to the request
after a successful route match (`mux.Vars(r)` reads it back). -/
structure HttpRequest where
  method : String
  path : String
  query : String
  headers : List (String × String)
  body : String
  routeVars : List (String × String)
deriving DecidableEq, Repr

/-- Embeds `mux.Vars(r)`: the route-variable map attached to the request
by the router. -/
def muxVars (r : HttpRequest) : List (String × String) :=
  r.routeVars

/-- Replace the binding of key `k` in a header list, as
`Header().Set(k, v)` does: the new value supersedes any previous one. -/
def setHeaderList (hs : List (String × String)) (k v : String) :
    List (String × String) :=
  (k, v) :: hs.filter (fun p => p.1 ≠ k)

/-- An `http.ResponseWriter` as observed by this unit: response headers,
the status code once written, and the bytes written to the stream. -/
structure ResponseWriter where
  headers : List (String × String)
  status : Option Nat
  body : String
deriving DecidableEq, Repr

/-- Embeds `w.Header().Set(k, v)`. -/
def ResponseWriter.setHeader (w : ResponseWriter) (k v : String) :
    ResponseWriter :=
  { w with headers := setHeaderList w.headers k v }

/-- Read a response header back. -/
def ResponseWriter.getHeader (w : ResponseWriter) (k : String) :
    Option String :=
  w.headers.lookup k

/-- Embeds `w.WriteHeader(code)`: records the status code; `net/http`
ignores a second call, so the first recorded status wins. -/
def ResponseWriter.writeHeader (w : ResponseWriter) (code : Nat) :
    ResponseWriter :=
  { w with status := some (w.status.getD code) }

/-- Embeds `w.Write(bs)`: appends to the stream; if no status was written
yet, `net/http` implicitly sends `200 OK` on the first write. -/
def ResponseWriter.write (w : ResponseWriter) (s : String) :
    ResponseWriter :=
  { w with status := some (w.status.getD 200), body := w.body ++ s }

/-- Embeds `http.StatusInternalServerError`. -/
def statusInternalServerError : Nat := 500

/-- A Go value handed to `encoding/json` as `interface{}`.  The
`unsupported` constructor stands for the kinds `json.Marshal` rejects
(channels, functions, complex numbers), carrying the Go type name that
appears in the resulting error message. -/
inductive GoVal where
  | null
  | bool (b : Bool)
  | num (n : Int)
  | str (s : String)
  | obj (fields : List (String × GoVal))
  | arr (items : List GoVal)
  | unsupported (typeName : String)

/-- Lowercase hexadecimal digit, as used in `encoding/json` `\u00xx`
escapes. -/
def hexDigit (n : Nat) : Char :=
  if n < 10 then Char.ofNat (48 + n) else Char.ofNat (87 + n)

/-- Escape one character as `encoding/json` does inside a JSON string:
quote, backslash, the common control characters, HTML-sensitive
characters (the encoder's default `SetEscapeHTML(true)`), and the line
separators U+2028/U+2029. -/
def jsonEscapeChar (c : Char) : String :=
  if c = '"' then "\\\""
  else if c = '\\' then "\\\\"
  else if c = '\n' then "\\n"
  else if c = '\r' then "\\r"
  else if c = '\t' then "\\t"
  else if c.toNat < 32 then
    "\\u00" ++ String.singleton (hexDigit (c.toNat / 16)) ++
      String.singleton (hexDigit (c.toNat % 16))
  else if c = '<' then "\\u003c"
  else if c = '>' then "\\u003e"
  else if c = '&' then "\\u0026"
  else if c.toNat = 8232 then "\\u2028"
  else if c.toNat = 8233 then "\\u2029"
  else String.singleton c

/-- Render a Go string as a quoted JSON string, `encoding/json` style. -/
def jsonQuote (s : String) : String :=
  "\"" ++ String.join (s.toList.map jsonEscapeChar) ++ "\""

mutual

/-- Embeds `json.Marshal` on the modelled values: `null`, booleans, numbers,
strings (escaped as above), objects, arrays; unsupported kinds fail with
the stdlib's `json: unsupported type: <T>` error. -/
def serialize : GoVal → Except GoError String
  | .null => .ok "null"
  | .bool true => .ok "true"
  | .bool false => .ok "false"
  | .num n => .ok (toString n)
  | .str s => .ok (jsonQuote s)
  | .obj fields => do
      let inner ← serializeFields fields
      .ok ("\x7b" ++ inner ++ "\x7d")
  | .arr items => do
      let inner ← serializeItems items
      .ok ("[" ++ inner ++ "]")
  | .unsupported typeName =>
      .error { msg := "json: unsupported type: " ++ typeName }

/-- Comma-separated `"key":value` renderings of an object's fields. -/
def serializeFields : List (String × GoVal) → Except GoError String
  | [] => .ok ""
  | [(k, v)] => do
      let s ← serialize v
      .ok (jsonQuote k ++ ":" ++ s)
  | (k, v) :: rest => do
      let s ← serialize v
      let tail ← serializeFields rest
      .ok (jsonQuote k ++ ":" ++ s ++ "," ++ tail)

/-- Comma-separated renderings of an array's items. -/
def serializeItems : List GoVal → Except GoError String
  | [] => .ok ""
  | [v] => serialize v
  | v :: rest => do
      let s ← serialize v
      let tail ← serializeItems rest
      .ok (s ++ "," ++ tail)

end

/-- Embeds `decodeStringRequest` (`http.go` lines 59–90): read the `type`, `a`
and `b` route variables in that order; if any is absent return
`ErrorBadRequest` and no request, otherwise build a `StringRequest` from
the three strings verbatim. -/
def decodeStringRequest (r : HttpRequest) : Except GoError StringRequest :=
  match (muxVars r).lookup "type" with
  | none => .error ErrorBadRequest
  | some requestType =>
    match (muxVars r).lookup "a" with
    | none => .error ErrorBadRequest
    | some pa =>
      match (muxVars r).lookup "b" with
      | none => .error ErrorBadRequest
      | some pb =>
        .ok { RequestType := requestType, A := pa, B := pb }

/-- Embeds `decodeHealthCheckRequest` (`http.go` lines 99–101): always succeeds
with the empty marker, ignoring the request entirely. -/
def decodeHealthCheckRequest (_r : HttpRequest) :
    Except GoError HealthRequest :=
  .ok {}

/-- Embeds `encodeStringResponse` (`http.go` lines 93–96): set the JSON content
type, then `json.NewEncoder(w).Encode(response)`.  On a successful
serialization the encoder writes the JSON document followed by a newline
and the function returns no error; if serialization fails nothing is
written to the stream, the error is returned — but the content-type
header has already been set. -/
def encodeStringResponse (w : ResponseWriter) (response : GoVal) :
    ResponseWriter × Option GoError :=
  let w1 := w.setHeader "Content-Type" "application/json;charset=utf-8"
  match serialize response with
  | .ok s => (w1.write (s ++ "\n"), none)
  | .error e => (w1, some e)

/-- Embeds `encodeError` (`http.go` lines 103–112): set the JSON content type
(spaced variant), `switch err` with only a `default` branch writing
status 500, then encode `map[string]interface{}{"error": err.Error()}`
to the stream. -/
def encodeError (err : GoError) (w : ResponseWriter) : ResponseWriter :=
  let w1 := w.setHeader "Content-Type" "application/json; charset=utf-8"
  let w2 := w1.writeHeader statusInternalServerError
  match serialize (.obj [("error", .str err.msg)]) with
  | .ok s => w2.write (s ++ "\n")
  | .error _ => w2

/-- Outcome of one handled call: the writer after the call and whether
the endpoint was dispatched. -/
structure CallResult where
  writer : ResponseWriter
  dispatched : Bool
deriving DecidableEq, Repr

/-- Modelled from the spec: the per-call pipeline of the go-kit HTTP
server that `MakeHttpHandler` binds for `/op/{type}/{a}/{b}` (the go-kit
`ServeHTTP` loop is an external collaborator, not in this repository's
source).  Spec §4.1: decode the request; a decode failure short-circuits
dispatch and goes straight to the error encoder; a dispatch failure
likewise goes to the error encoder; otherwise the success encoder runs,
and an encoding failure is also routed to the error encoder.  The
endpoint is taken as an arbitrary function from decoded requests to a
response value or an error. -/
def handleStringCall (ep : StringRequest → Except GoError GoVal)
    (r : HttpRequest) (w : ResponseWriter) : CallResult :=
  match decodeStringRequest r with
  | .error e => { writer := encodeError e w, dispatched := false }
  | .ok req =>
    match ep req with
    | .error e => { writer := encodeError e w, dispatched := true }
    | .ok resp =>
      match encodeStringResponse w resp with
      | (w1, none) => { writer := w1, dispatched := true }
      | (w1, some e) => { writer := encodeError e w1, dispatched := true }

/-- A sequence of independent calls, each with its own request and its
own fresh writer, processed by the pipeline.  There is no server state
threaded between calls because the transport unit keeps none. -/
def processCalls (ep : StringRequest → Except GoError GoVal)
    (calls : List (HttpRequest × ResponseWriter)) : List CallResult :=
  calls.map fun c => handleStringCall ep c.1 c.2

/-- The two endpoints of `endpoint.StringEndpoints` that
`MakeHttpHandler` wires up. -/
inductive EndpointRef where
  | stringEndpoint
  | healthCheckEndpoint
deriving DecidableEq, Repr

/-- The two request decoders defined in `http.go`. -/
inductive DecoderRef where
  | stringRequestDecoder
  | healthCheckRequestDecoder
deriving DecidableEq, Repr

/-- The single response encoder defined in `http.go`. -/
inductive EncoderRef where
  | stringResponseEncoder
deriving DecidableEq, Repr

/-- A route's handler: either a go-kit server built from an endpoint, a
decoder and an encoder (plus the error-encoder options), or the external
Prometheus exposition handler mounted verbatim. -/
inductive RouteHandler where
  | kitServer (e : EndpointRef) (dec : DecoderRef) (enc : EncoderRef)
  | promhttpHandler
deriving DecidableEq, Repr

/-- One route binding of the `gorilla/mux` router: optional method
restriction, path template, handler. -/
structure Route where
  method : Option String
  path : String
  handler : RouteHandler
deriving DecidableEq, Repr

/-- Embeds `MakeHttpHandler` (`http.go` lines 22–56) as the route table
it builds, in registration order: `POST /op/{type}/{a}/{b}` served by a
go-kit server over the string endpoint with `decodeStringRequest` and
`encodeStringResponse`; `/metrics` (no method restriction) handed to
`promhttp.Handler()` untouched; `GET /health` served by a go-kit server
over the health-check endpoint with `decodeHealthCheckRequest` and
`encodeStringResponse`. -/
def MakeHttpHandler : List Route :=
  [ { method := some "POST", path := "/op/{type}/{a}/{b}",
      handler := .kitServer .stringEndpoint .stringRequestDecoder
        .stringResponseEncoder },
    { method := none, path := "/metrics", handler := .promhttpHandler },
    { method := some "GET", path := "/health",
      handler := .kitServer .healthCheckEndpoint .healthCheckRequestDecoder
        .stringResponseEncoder } ]

/-- A decoded request, either kind. -/
inductive DecodedRequest where
  | strReq (q : StringRequest)
  | healthReq (q : HealthRequest)
deriving DecidableEq, Repr

/-- Interpretation of the decoder references as the actual decoding
functions of `http.go`. -/
def runDecoder : DecoderRef → HttpRequest → Except GoError DecodedRequest
  | .stringRequestDecoder, r => (decodeStringRequest r).map .strReq
  | .healthCheckRequestDecoder, r => (decodeHealthCheckRequest r).map .healthReq

/-- Whether an `Except` result is a success. -/
def exceptIsOk {ε α : Type} : Except ε α → Bool
  | .ok _ => true
  | .error _ => false

/-- A fresh response writer, as handed to the handler by `net/http`. -/
def wStart : ResponseWriter := { headers := [], status := none, body := "" }

/-- A matched `POST /op/add/3/4` request. -/
def reqAdd : HttpRequest :=
  { method := "POST", path := "/op/add/3/4", query := "", headers := [],
    body := "", routeVars := [("type", "add"), ("a", "3"), ("b", "4")] }

/-- A request whose route-variable map lacks the `type` variable. -/
def reqNoType : HttpRequest :=
  { method := "POST", path := "/op/add/3/4", query := "", headers := [],
    body := "", routeVars := [("a", "3"), ("b", "4")] }

/-- A request whose route variables are present but map to empty
strings. -/
def reqEmptyVals : HttpRequest :=
  { method := "POST", path := "/op///4", query := "", headers := [],
    body := "", routeVars := [("type", ""), ("a", ""), ("b", "4")] }

/-- An endpoint that always fails with a division-by-zero error. -/
def epDivByZero : StringRequest → Except GoError GoVal :=
  fun _ => .error { msg := "division by zero" }

/-- An endpoint that always answers with a result object. -/
def epConstResult : StringRequest → Except GoError GoVal :=
  fun _ => .ok (.obj [("result", .str "7")])

/-- Computation of the quoted `error` key. -/
theorem jsonQuote_error_key : jsonQuote "error" = "\"error\"" := rfl

/-- Serialization of the error envelope `map[string]interface{}{"error": m}`
always succeeds and renders the single-field JSON object. -/
theorem serialize_error_obj (m : String) :
    serialize (.obj [("error", .str m)]) =
      .ok ("\x7b\"error\":" ++ jsonQuote m ++ "\x7d") := by
  simp [serialize, serializeFields, Except.bind, jsonQuote_error_key]
  rfl

/-- After `Set`, looking the key up yields the new value. -/
theorem lookup_setHeaderList (hs : List (String × String)) (k v : String) :
    (setHeaderList hs k v).lookup k = some v := by
  simp [setHeaderList, List.lookup]

/-- Closed form of `encodeError`: content-type set, status 500 unless one
was already written, and the error envelope plus the encoder's newline
appended to the body. -/
theorem encodeError_eq (err : GoError) (w : ResponseWriter) :
    encodeError err w =
      { headers := setHeaderList w.headers "Content-Type"
          "application/json; charset=utf-8",
        status := some (w.status.getD statusInternalServerError),
        body := w.body ++
          (("\x7b\"error\":" ++ jsonQuote err.msg ++ "\x7d") ++ "\n") } := by
  simp [encodeError, serialize_error_obj, ResponseWriter.setHeader,
    ResponseWriter.writeHeader, ResponseWriter.write]

/-- Claim C1: every error value reaching `encodeError`, whatever its
identity (the bad-request decode error included), is written with the
generic server-error status 500, content type
`application/json; charset=utf-8`, and a body that is the JSON object
with the single field `error` holding the error's textual message (the
stream encoder terminates the document with a newline). -/
theorem encodeError_uniform_500_json_envelope (err : GoError)
    (w : ResponseWriter) (h : w.status = none) :
    (encodeError err w).status = some 500 ∧
    (encodeError err w).getHeader "Content-Type" =
      some "application/json; charset=utf-8" ∧
    (encodeError err w).body =
      w.body ++ (("\x7b\"error\":" ++ jsonQuote err.msg ++ "\x7d") ++ "\n") := by
  refine ⟨?_, ?_, ?_⟩
  · simp [encodeError_eq, h, statusInternalServerError]
  · simp [encodeError_eq, ResponseWriter.getHeader, lookup_setHeaderList]
  · simp [encodeError_eq]

theorem encodeError_uniform_500_json_envelope_witness :
    wStart.status = none ∧
    ((encodeError { msg := "division by zero" } wStart).status = some 500 ∧
     (encodeError { msg := "division by zero" } wStart).getHeader
       "Content-Type" = some "application/json; charset=utf-8" ∧
     (encodeError { msg := "division by zero" } wStart).body =
       wStart.body ++
         (("\x7b\"error\":" ++ jsonQuote "division by zero" ++ "\x7d") ++ "\n")) :=
  ⟨rfl, encodeError_uniform_500_json_envelope { msg := "division by zero" }
    wStart rfl⟩

/-- Claim C2: whenever the route-variable map of a request carries all
three variables `type`, `a` and `b`, `decodeStringRequest` succeeds and
returns a `StringRequest` whose fields are the three strings verbatim —
no numeric parsing, no trimming, no validation of the type value. -/
theorem decodeStringRequest_verbatim (r : HttpRequest) (ta va vb : String)
    (ht : (muxVars r).lookup "type" = some ta)
    (ha : (muxVars r).lookup "a" = some va)
    (hb : (muxVars r).lookup "b" = some vb) :
    decodeStringRequest r = .ok { RequestType := ta, A := va, B := vb } := by
  unfold decodeStringRequest
  rw [ht, ha, hb]

theorem decodeStringRequest_verbatim_witness :
    (muxVars reqAdd).lookup "type" = some "add" ∧
    (muxVars reqAdd).lookup "a" = some "3" ∧
    (muxVars reqAdd).lookup "b" = some "4" ∧
    decodeStringRequest reqAdd =
      .ok { RequestType := "add", A := "3", B := "4" } :=
  ⟨rfl, rfl, rfl,
    decodeStringRequest_verbatim reqAdd "add" "3" "4" rfl rfl rfl⟩

/-- Claim C3: if any of `type`, `a`, `b` is absent from the
route-variable map, `decodeStringRequest` returns no request but the one
distinguished error value `ErrorBadRequest` ("invalid request
parameter"), whichever variable is missing, and the pipeline performs no
dispatch to the endpoint. -/
theorem decodeStringRequest_missing_var_bad_request (r : HttpRequest)
    (h : (muxVars r).lookup "type" = none ∨
      (muxVars r).lookup "a" = none ∨ (muxVars r).lookup "b" = none) :
    decodeStringRequest r = .error ErrorBadRequest ∧
    ∀ ep w, (handleStringCall ep r w).dispatched = false := by
  have hdec : decodeStringRequest r = .error ErrorBadRequest := by
    rcases h with h1 | h2 | h3
    · simp [decodeStringRequest, h1]
    · rcases ht : (muxVars r).lookup "type" with _ | ta <;>
        simp [decodeStringRequest, ht, h2]
    · rcases ht : (muxVars r).lookup "type" with _ | ta <;>
        rcases ha : (muxVars r).lookup "a" with _ | va <;>
        simp [decodeStringRequest, ht, ha, h3]
  exact ⟨hdec, fun ep w => by simp [handleStringCall, hdec]⟩

theorem decodeStringRequest_missing_var_bad_request_witness :
    (muxVars reqNoType).lookup "type" = none ∧
    decodeStringRequest reqNoType = .error ErrorBadRequest ∧
    (handleStringCall epDivByZero reqNoType wStart).dispatched = false :=
  ⟨rfl,
    (decodeStringRequest_missing_var_bad_request reqNoType (Or.inl rfl)).1,
    (decodeStringRequest_missing_var_bad_request reqNoType (Or.inl rfl)).2
      epDivByZero wStart⟩

/-- Claim C4: `decodeHealthCheckRequest` succeeds on every request,
returning the empty `HealthRequest` marker and ignoring method, path,
query string, headers and body alike. -/
theorem decodeHealthCheckRequest_always_ok (r : HttpRequest) :
    decodeHealthCheckRequest r = .ok {} := rfl

/-- Claim C5: on a serializable response value, `encodeStringResponse`
sets content type `application/json;charset=utf-8`, writes exactly the
value's JSON serialization to the stream (the stream encoder appends the
terminating newline), returns no error, and writes no explicit status
code, so the implicit default success status 200 applies on the first
body write. -/
theorem encodeStringResponse_success (w : ResponseWriter) (v : GoVal)
    (s : String) (hser : serialize v = .ok s) (hst : w.status = none) :
    (encodeStringResponse w v).2 = none ∧
    (encodeStringResponse w v).1.getHeader "Content-Type" =
      some "application/json;charset=utf-8" ∧
    (encodeStringResponse w v).1.body = w.body ++ (s ++ "\n") ∧
    (encodeStringResponse w v).1.status = some 200 := by
  refine ⟨?_, ?_, ?_, ?_⟩ <;>
    simp [encodeStringResponse, hser, ResponseWriter.setHeader,
      ResponseWriter.write, ResponseWriter.getHeader, lookup_setHeaderList,
      hst]

theorem encodeStringResponse_success_witness :
    serialize (.obj [("result", .str "7")]) =
      .ok "\x7b\"result\":\"7\"\x7d" ∧
    wStart.status = none ∧
    ((encodeStringResponse wStart (.obj [("result", .str "7")])).2 = none ∧
     (encodeStringResponse wStart (.obj [("result", .str "7")])).1.getHeader
       "Content-Type" = some "application/json;charset=utf-8" ∧
     (encodeStringResponse wStart (.obj [("result", .str "7")])).1.body =
       wStart.body ++ ("\x7b\"result\":\"7\"\x7d" ++ "\n") ∧
     (encodeStringResponse wStart (.obj [("result", .str "7")])).1.status =
       some 200) :=
  ⟨rfl, rfl, encodeStringResponse_success wStart (.obj [("result", .str "7")])
    "\x7b\"result\":\"7\"\x7d" rfl rfl⟩

/-- Claim C6: in the per-call pipeline, a decode failure short-circuits
dispatch and goes straight to the error encoder; a dispatch failure
likewise goes to the error encoder; and every call appends to the writer
exactly one complete JSON document — a success body or an error body —
never both and never a fragment. -/
theorem handleStringCall_single_complete_body
    (ep : StringRequest → Except GoError GoVal) (r : HttpRequest)
    (w : ResponseWriter) :
    (∀ e, decodeStringRequest r = .error e →
      handleStringCall ep r w =
        { writer := encodeError e w, dispatched := false }) ∧
    (∀ q e, decodeStringRequest r = .ok q → ep q = .error e →
      handleStringCall ep r w =
        { writer := encodeError e w, dispatched := true }) ∧
    (∃ v s, serialize v = .ok s ∧
      (handleStringCall ep r w).writer.body = w.body ++ (s ++ "\n")) := by
  refine ⟨fun e he => by simp [handleStringCall, he],
    fun q e hq he => by simp [handleStringCall, hq, he], ?_⟩
  cases hdec : decodeStringRequest r with
  | error e =>
      refine ⟨.obj [("error", .str e.msg)], _, serialize_error_obj e.msg, ?_⟩
      simp [handleStringCall, hdec, encodeError_eq]
  | ok q =>
      cases hep : ep q with
      | error e =>
          refine ⟨.obj [("error", .str e.msg)], _,
            serialize_error_obj e.msg, ?_⟩
          simp [handleStringCall, hdec, hep, encodeError_eq]
      | ok resp =>
          cases hs : serialize resp with
          | ok s =>
              refine ⟨resp, s, hs, ?_⟩
              simp [handleStringCall, hdec, hep, encodeStringResponse, hs,
                ResponseWriter.setHeader, ResponseWriter.write]
          | error e =>
              refine ⟨.obj [("error", .str e.msg)], _,
                serialize_error_obj e.msg, ?_⟩
              simp [handleStringCall, hdec, hep, encodeStringResponse, hs,
                encodeError_eq, ResponseWriter.setHeader]

theorem handleStringCall_single_complete_body_witness :
    handleStringCall epDivByZero reqNoType wStart =
      { writer := encodeError ErrorBadRequest wStart, dispatched := false } ∧
    handleStringCall epDivByZero reqAdd wStart =
      { writer := encodeError { msg := "division by zero" } wStart,
        dispatched := true } ∧
    (∃ v s, serialize v = .ok s ∧
      (handleStringCall epConstResult reqAdd wStart).writer.body =
        wStart.body ++ (s ++ "\n")) :=
  ⟨(handleStringCall_single_complete_body epDivByZero reqNoType wStart).1
      ErrorBadRequest rfl,
   (handleStringCall_single_complete_body epDivByZero reqAdd wStart).2.1
      { RequestType := "add", A := "3", B := "4" }
      { msg := "division by zero" } rfl rfl,
   (handleStringCall_single_complete_body epConstResult reqAdd wStart).2.2⟩

/-- Claim C7: `MakeHttpHandler` binds exactly three routes — `POST
/op/{type}/{a}/{b}` to the string endpoint through the path-variable
decoder and the JSON success encoder, `GET /health` to the health-check
endpoint through the empty decoder, and `/metrics` handed entirely to
the external Prometheus exposition handler — and the decoder references
denote exactly the two decoding functions of this file. -/
theorem MakeHttpHandler_binds_three_routes :
    MakeHttpHandler.length = 3 ∧
    MakeHttpHandler =
      [ { method := some "POST", path := "/op/{type}/{a}/{b}",
          handler := .kitServer .stringEndpoint .stringRequestDecoder
            .stringResponseEncoder },
        { method := none, path := "/metrics",
          handler := .promhttpHandler },
        { method := some "GET", path := "/health",
          handler := .kitServer .healthCheckEndpoint
            .healthCheckRequestDecoder .stringResponseEncoder } ] ∧
    (∀ r, runDecoder .stringRequestDecoder r =
      (decodeStringRequest r).map .strReq) ∧
    (∀ r, runDecoder .healthCheckRequestDecoder r =
      (decodeHealthCheckRequest r).map .healthReq) :=
  ⟨rfl, rfl, fun _ => rfl, fun _ => rfl⟩

/-- Claim C8: the transport holds no cross-request state — the result of
a call within any sequence of calls is a deterministic function of that
call's own input alone: it equals the stand-alone result, and two runs
on identical inputs at any positions of any two sequences produce
identical results. -/
theorem transport_stateless_deterministic
    (ep : StringRequest → Except GoError GoVal)
    (calls1 calls2 : List (HttpRequest × ResponseWriter)) (i j : Nat)
    (r : HttpRequest) (w : ResponseWriter)
    (h1 : calls1[i]? = some (r, w)) (h2 : calls2[j]? = some (r, w)) :
    (processCalls ep calls1)[i]? = some (handleStringCall ep r w) ∧
    (processCalls ep calls1)[i]? = (processCalls ep calls2)[j]? := by
  constructor <;> simp [processCalls, List.getElem?_map, h1, h2]

theorem transport_stateless_deterministic_witness :
    ([(reqAdd, wStart)] :
      List (HttpRequest × ResponseWriter))[0]? = some (reqAdd, wStart) ∧
    ([(reqNoType, wStart), (reqAdd, wStart)] :
      List (HttpRequest × ResponseWriter))[1]? = some (reqAdd, wStart) ∧
    ((processCalls epConstResult [(reqAdd, wStart)])[0]? =
      some (handleStringCall epConstResult reqAdd wStart) ∧
     (processCalls epConstResult [(reqAdd, wStart)])[0]? =
      (processCalls epConstResult [(reqNoType, wStart), (reqAdd, wStart)])[1]?) :=
  ⟨rfl, rfl,
    transport_stateless_deterministic epConstResult [(reqAdd, wStart)]
      [(reqNoType, wStart), (reqAdd, wStart)] 0 1 reqAdd wStart rfl rfl⟩

/-- Claim C9: `decodeStringRequest` checks only the presence of the
route variables, not their contents: with all three present, decoding
succeeds even when some map to the empty string, and the empty string is
carried verbatim in the corresponding field. -/
theorem decodeStringRequest_accepts_empty_values (r : HttpRequest)
    (ta va vb : String)
    (ht : (muxVars r).lookup "type" = some ta)
    (ha : (muxVars r).lookup "a" = some va)
    (hb : (muxVars r).lookup "b" = some vb) :
    exceptIsOk (decodeStringRequest r) = true ∧
    decodeStringRequest r = .ok { RequestType := ta, A := va, B := vb } := by
  have hd : decodeStringRequest r =
      .ok { RequestType := ta, A := va, B := vb } := by
    unfold decodeStringRequest
    rw [ht, ha, hb]
  exact ⟨by simp [hd, exceptIsOk], hd⟩

theorem decodeStringRequest_accepts_empty_values_witness :
    (muxVars reqEmptyVals).lookup "type" = some "" ∧
    (muxVars reqEmptyVals).lookup "a" = some "" ∧
    (muxVars reqEmptyVals).lookup "b" = some "4" ∧
    (exceptIsOk (decodeStringRequest reqEmptyVals) = true ∧
     decodeStringRequest reqEmptyVals =
       .ok { RequestType := "", A := "", B := "4" }) :=
  ⟨rfl, rfl, rfl,
    decodeStringRequest_accepts_empty_values reqEmptyVals "" "" "4"
      rfl rfl rfl⟩

/-- Claim C10: `encodeStringResponse` mutates the writer's content-type
header before attempting serialization, so when serialization fails the
error is returned with nothing written to the body and no status set,
while the content-type header has already been changed — the failed call
is not atomic with respect to the writer's state. -/
theorem encodeStringResponse_header_set_before_failure (w : ResponseWriter)
    (v : GoVal) (e : GoError) (h : serialize v = .error e) :
    (encodeStringResponse w v).2 = some e ∧
    (encodeStringResponse w v).1.getHeader "Content-Type" =
      some "application/json;charset=utf-8" ∧
    (encodeStringResponse w v).1.body = w.body ∧
    (encodeStringResponse w v).1.status = w.status := by
  refine ⟨?_, ?_, ?_, ?_⟩ <;>
    simp [encodeStringResponse, h, ResponseWriter.setHeader,
      ResponseWriter.getHeader, lookup_setHeaderList]

theorem encodeStringResponse_header_set_before_failure_witness :
    serialize (.unsupported "chan string") =
      .error { msg := "json: unsupported type: chan string" } ∧
    wStart.getHeader "Content-Type" = none ∧
    ((encodeStringResponse wStart (.unsupported "chan string")).2 =
      some { msg := "json: unsupported type: chan string" } ∧
     (encodeStringResponse wStart (.unsupported "chan string")).1.getHeader
       "Content-Type" = some "application/json;charset=utf-8" ∧
     (encodeStringResponse wStart (.unsupported "chan string")).1.body =
       wStart.body ∧
     (encodeStringResponse wStart (.unsupported "chan string")).1.status =
       wStart.status) :=
  ⟨rfl, rfl,
    encodeStringResponse_header_set_before_failure wStart
      (.unsupported "chan string")
      { msg := "json: unsupported type: chan string" } rfl⟩
